import Mathlib

/-!
Shallow embedding of the turn-resolution core of the roguelike repository
(`actions.py` and `input_handlers.py`), together with proofs of the spec's
claims about it.

Machine integers do not occur: Python ints are unbounded, so coordinates and
combat statistics are `Int` and sizes are `Nat`.  Object identity (Python
references) is modelled by a numeric `id`; the mutable heap of entities is the
lists stored in `State`.  An `Action.perform()` call is a function from the
world state to an `Outcome`: normal return, a raised `Impossible(msg)`
(which leaves the state exactly as it was at the raise point, as in the
source, where every raise happens before any mutation), or a raised
`SystemExit`.
-/

namespace Rogue

/-- Message colors (`color.py` is an external constant table; only the three
constants the embedded code mentions are needed: `player_atk`, `enemy_atk`,
and the default white used by `message_log.add_message` without a color). -/
inductive Color where
  | playerAtk
  | enemyAtk
  | white
deriving DecidableEq

/-- One entry of the engine's message log: `add_message(text, color)`. -/
structure Message where
  text : String
  color : Color
deriving DecidableEq

/-- The `Fighter` component of an actor: `hp`, `power`, `defense`. -/
structure Fighter where
  hp : Int
  power : Int
  defense : Int
deriving DecidableEq

/-- Ownership tag of an item: on the map's entity set, or inside the
inventory of the actor with the given id (`item.parent` in the source). -/
inductive Owner where
  | onMap
  | inventoryOf (actorId : Nat)
deriving DecidableEq

/-- An `Item` entity: position, name and current owner.  Items never block
movement in this code base. -/
structure Item where
  id : Nat
  x : Int
  y : Int
  name : String
  parent : Owner
deriving DecidableEq

/-- The `Inventory` component: a capacity and an order-preserving list of
held items (`inventory.items`). -/
structure Inventory where
  capacity : Nat
  items : List Item
deriving DecidableEq

/-- An `Actor` entity: position, name, `Fighter` and `Inventory` components,
and its `blocks_movement` flag (live actors block). -/
structure Actor where
  id : Nat
  x : Int
  y : Int
  name : String
  fighter : Fighter
  inventory : Inventory
  blocksMovement : Bool
deriving DecidableEq

/-- Modelled from the spec: the engine's enemy-turn pass and FOV refresh are
external collaborators (`engine.handle_enemy_turns()` / `engine.update_fov()`
are not part of the two embedded source files); the claims only observe
*whether and in which order* they run, so each invocation is recorded as one
trace event. -/
inductive SeqEvent where
  | enemyTurns
  | fovRefresh
deriving DecidableEq

/-- The world state reachable from an action: the map (tile grid dimensions
plus a walkability lookup), the live entity set split into actors and items,
the engine's player reference (by id), the message log, and the trace of
engine sequencer invocations. -/
structure State where
  width : Int
  height : Int
  walkable : Int → Int → Bool
  actors : List Actor
  mapItems : List Item
  playerId : Nat
  messageLog : List Message
  trace : List SeqEvent

/-- `game_map.in_bounds(x, y)`: `0 <= x < width and 0 <= y < height`. -/
def State.inBounds (s : State) (x y : Int) : Bool :=
  decide (0 ≤ x) && decide (x < s.width) && decide (0 ≤ y) && decide (y < s.height)

/-- `game_map.get_actor_at_location(x, y)` (modelled from the spec's
Geometry Oracle `actor_at`: returns an Actor at that exact cell, if any). -/
def getActorAt (s : State) (x y : Int) : Option Actor :=
  s.actors.find? (fun a => a.x == x && a.y == y)

/-- `game_map.get_blocking_entity_at_location(x, y)` (modelled from the
spec's Oracle `blocking_entity_at`: any entity at that cell that blocks
movement; items never block, so only actors can be returned). -/
def getBlockingEntityAt (s : State) (x y : Int) : Option Actor :=
  s.actors.find? (fun a => a.blocksMovement && a.x == x && a.y == y)

/-- Dereference an actor id in the current state (reading the current field
values of the Python object the id stands for). -/
def findActor (s : State) (aid : Nat) : Option Actor :=
  s.actors.find? (fun a => a.id == aid)

/-- Current hit points of the actor with the given id, if present. -/
def actorHp (s : State) (aid : Nat) : Option Int :=
  (findActor s aid).map (fun a => a.fighter.hp)

/-- Current position of the actor with the given id, if present. -/
def actorPos (s : State) (aid : Nat) : Option (Int × Int) :=
  (findActor s aid).map (fun a => (a.x, a.y))

/-- Overwrite an actor's hit points (`target.fighter.hp -= damage` mutates
the object the reference points to). -/
def setHp (a : Actor) (v : Int) : Actor :=
  { a with fighter := { a.fighter with hp := v } }

/-- In-place hp mutation of the object with id `aid`. -/
def updateActorHp (s : State) (aid : Nat) (v : Int) : State :=
  { s with actors := s.actors.map (fun a => if a.id == aid then setHp a v else a) }

/-- `entity.move(dx, dy)`: `x += dx; y += dy` on the object with id `aid`. -/
def moveActor (s : State) (aid : Nat) (dx dy : Int) : State :=
  { s with
    actors := s.actors.map (fun a =>
      if a.id == aid then { a with x := a.x + dx, y := a.y + dy } else a) }

/-- `engine.message_log.add_message(text, color)`. -/
def addMessage (s : State) (text : String) (c : Color) : State :=
  { s with messageLog := s.messageLog ++ [⟨text, c⟩] }

/-- Python's `str.capitalize()`: first character upper-cased, the rest
lower-cased (for the ASCII names this code uses). -/
def pyCapitalize (str : String) : String :=
  match str.data with
  | [] => ""
  | c :: cs => String.mk (c.toUpper :: cs.map Char.toLower)

/-- Result of one `Action.perform()` call: normal return with the new state,
a raised `Impossible(msg)` with the state at the raise point, or a raised
`SystemExit` (quit / exit intent). -/
inductive Outcome where
  | ok (s : State)
  | impossible (msg : String) (s : State)
  | exit (s : State)

/-- The state carried by an outcome (the Python heap survives an exception). -/
def Outcome.state : Outcome → State
  | .ok s => s
  | .impossible _ s => s
  | .exit s => s

/-- `MeleeAction(entity, dx, dy).perform()`. -/
def meleeActionPerform (s : State) (entity : Actor) (dx dy : Int) : Outcome :=
  match getActorAt s (entity.x + dx) (entity.y + dy) with
  | none => .impossible "Nothing to attack." s
  | some target =>
    let damage := entity.fighter.power - target.fighter.defense
    let attackDesc := pyCapitalize entity.name ++ " attacks " ++ target.name
    let attackColor := if entity.id == s.playerId then Color.playerAtk else Color.enemyAtk
    if 0 < damage then
      .ok (updateActorHp
        (addMessage s (attackDesc ++ " for " ++ toString damage ++ " hit points.") attackColor)
        target.id (target.fighter.hp - damage))
    else
      .ok (addMessage s (attackDesc ++ " but does no damage.") attackColor)

/-- `MovementAction(entity, dx, dy).perform()`. -/
def movementActionPerform (s : State) (entity : Actor) (dx dy : Int) : Outcome :=
  if !(s.inBounds (entity.x + dx) (entity.y + dy)) then
    .impossible "That way is blocked." s
  else if !(s.walkable (entity.x + dx) (entity.y + dy)) then
    .impossible "That was is blocked." s
  else if (getBlockingEntityAt s (entity.x + dx) (entity.y + dy)).isSome then
    .impossible "That way is blocked." s
  else
    .ok (moveActor s entity.id dx dy)

/-- `BumpAction(entity, dx, dy).perform()`. -/
def bumpActionPerform (s : State) (entity : Actor) (dx dy : Int) : Outcome :=
  if (getActorAt s (entity.x + dx) (entity.y + dy)).isSome then
    meleeActionPerform s entity dx dy
  else
    movementActionPerform s entity dx dy

/-- `PickupAction.attempt_pickup(inventory, item)`. -/
def attemptPickup (s : State) (entity : Actor) (item : Item) : Outcome :=
  if entity.inventory.items.length ≥ entity.inventory.capacity then
    .impossible "Your inventory is full." s
  else
    .ok (addMessage
      { s with
        mapItems := s.mapItems.eraseP (fun it => it.id == item.id),
        actors := s.actors.map (fun a =>
          if a.id == entity.id then
            { a with inventory :=
              { a.inventory with
                items := a.inventory.items ++ [{ item with parent := Owner.inventoryOf entity.id }] } }
          else a) }
      ("You picked up the " ++ item.name ++ "!") Color.white)

/-- `PickupAction(entity).perform()`: scan the map's items for the first one
exactly co-located with the actor. -/
def pickupActionPerform (s : State) (entity : Actor) : Outcome :=
  match s.mapItems.find? (fun item => entity.x == item.x && entity.y == item.y) with
  | some item => attemptPickup s entity item
  | none => .impossible "There is nothing here to pick up." s

/-- `WaitAction(entity).perform()`: `pass`. -/
def waitActionPerform (s : State) : Outcome :=
  .ok s

/-- Modelled from the spec: `EscapeAction` is imported by
`input_handlers.py` but not defined in `actions.py`; the spec describes it as
the player's exit intent, a terminal (SystemExit-like) signal that bypasses
normal turn sequencing and changes no world state. -/
def escapeActionPerform (s : State) : Outcome :=
  .exit s

/-- The symbolic key codes (`tcod.event.KeySym`) that `input_handlers.py`
mentions, plus `other n` standing for every remaining key code. -/
inductive KeySym where
  | UP | DOWN | LEFT | RIGHT | HOME | END | PAGEUP | PAGEDOWN
  | KP_1 | KP_2 | KP_3 | KP_4 | KP_5 | KP_6 | KP_7 | KP_8 | KP_9
  | h | j | k | l | y | u | b | n
  | PERIOD | CLEAR
  | ESCAPE
  | other (code : Nat)
deriving DecidableEq

/-- The static `MOVE_KEYS` dictionary: arrow keys, numpad keys, vi keys. -/
def MOVE_KEYS : KeySym → Option (Int × Int)
  | .UP => some (0, -1)
  | .DOWN => some (0, 1)
  | .LEFT => some (-1, 0)
  | .RIGHT => some (1, 0)
  | .HOME => some (-1, -1)
  | .END => some (-1, 1)
  | .PAGEUP => some (1, -1)
  | .PAGEDOWN => some (1, 1)
  | .KP_1 => some (-1, 1)
  | .KP_2 => some (0, 1)
  | .KP_3 => some (1, 1)
  | .KP_4 => some (-1, 0)
  | .KP_6 => some (1, 0)
  | .KP_7 => some (-1, -1)
  | .KP_8 => some (0, -1)
  | .KP_9 => some (1, -1)
  | .h => some (-1, 0)
  | .j => some (0, 1)
  | .k => some (0, -1)
  | .l => some (1, 0)
  | .y => some (-1, -1)
  | .u => some (1, -1)
  | .b => some (-1, 1)
  | .n => some (1, 1)
  | _ => none

/-- The static `WAIT_KEYS` set: `PERIOD`, `KP_5`, `CLEAR`. -/
def WAIT_KEYS : KeySym → Bool
  | .PERIOD => true
  | .KP_5 => true
  | .CLEAR => true
  | _ => false

/-- The Action variant an event handler constructs for the player (every
Action the handlers build is bound to `engine.player`). -/
inductive GameAction where
  | bump (dx dy : Int)
  | wait
  | escape
deriving DecidableEq

/-- `MainGameEventHandler.ev_keydown`: the if/elif chain over `MOVE_KEYS`,
`WAIT_KEYS` and `ESCAPE`; any other key returns `None`. -/
def mainGameEvKeydown (key : KeySym) : Option GameAction :=
  match MOVE_KEYS key with
  | some (dx, dy) => some (GameAction.bump dx dy)
  | none =>
    if WAIT_KEYS key then some GameAction.wait
    else if key = KeySym.ESCAPE then some GameAction.escape
    else none

/-- `GameOverEventHandler.ev_keydown`: only `ESCAPE` yields an action. -/
def gameOverEvKeydown (key : KeySym) : Option GameAction :=
  if key = KeySym.ESCAPE then some GameAction.escape else none

/-- Modelled from the spec: `engine.handle_enemy_turns()` is an external
collaborator; its invocation is recorded as a trace event. -/
def handleEnemyTurns (s : State) : State :=
  { s with trace := s.trace ++ [SeqEvent.enemyTurns] }

/-- Modelled from the spec: `engine.update_fov()` is an external
collaborator; its invocation is recorded as a trace event. -/
def updateFov (s : State) : State :=
  { s with trace := s.trace ++ [SeqEvent.fovRefresh] }

/-- `action.perform()` for an action a handler constructed for the player.
A constructed `BumpAction` is bound to the live player object; the `none`
branch of the player lookup is unreachable in the source (the engine always
holds a player) and returns the state unchanged. -/
def performAction (s : State) (a : GameAction) : Outcome :=
  match a with
  | .bump dx dy =>
    match findActor s s.playerId with
    | some p => bumpActionPerform s p dx dy
    | none => .ok s
  | .wait => waitActionPerform s
  | .escape => escapeActionPerform s

/-- Result of processing one event in a `handle_events` loop body: `done`
(the iteration completed and the loop continues), `raised` (an uncaught
`Impossible` propagated out of the loop), or `exited` (`SystemExit`). -/
inductive LoopResult where
  | done (s : State)
  | raised (msg : String) (s : State)
  | exited (s : State)

/-- The state carried by a loop result. -/
def LoopResult.state : LoopResult → State
  | .done s => s
  | .raised _ s => s
  | .exited s => s

/-- One iteration of `MainGameEventHandler.handle_events` on a key-down
event: dispatch; `continue` on `None`; otherwise `action.perform()`, then
`engine.handle_enemy_turns()`, then `engine.update_fov()`.  There is no
try/except in the source, so a raised `Impossible` propagates out. -/
def mainGameHandleEvent (s : State) (key : KeySym) : LoopResult :=
  match mainGameEvKeydown key with
  | none => .done s
  | some act =>
    match performAction s act with
    | .ok s1 => .done (updateFov (handleEnemyTurns s1))
    | .impossible msg s1 => .raised msg s1
    | .exit s1 => .exited s1

/-- One iteration of `GameOverEventHandler.handle_events` on a key-down
event: dispatch; `continue` on `None`; otherwise `action.perform()` and
nothing else (no enemy turns, no FOV refresh). -/
def gameOverHandleEvent (s : State) (key : KeySym) : LoopResult :=
  match gameOverEvKeydown key with
  | none => .done s
  | some act =>
    match performAction s act with
    | .ok s1 => .done s1
    | .impossible msg s1 => .raised msg s1
    | .exit s1 => .exited s1

/-! ### Helper lemmas -/

theorem find?_id_map (l : List Actor) (g : Actor → Actor) (hg : ∀ a, (g a).id = a.id)
    (aid : Nat) :
    (l.map g).find? (fun a => a.id == aid) = (l.find? (fun a => a.id == aid)).map g := by
  rw [List.find?_map]
  have hp : ((fun a => a.id == aid) ∘ g) = (fun a => a.id == aid) := by
    funext a
    simp [Function.comp, hg]
  rw [hp]

theorem find?_id_self (l : List Actor) (a : Actor) (hmem : a ∈ l)
    (hnd : (l.map Actor.id).Nodup) :
    l.find? (fun b => b.id == a.id) = some a := by
  induction l with
  | nil => cases hmem
  | cons c l ih =>
    simp only [List.map_cons, List.nodup_cons] at hnd
    rcases List.mem_cons.mp hmem with rfl | hmem'
    · simp [List.find?]
    · have hne : (c.id == a.id) = false := by
        apply beq_false_of_ne
        intro hid
        exact hnd.1 (hid ▸ List.mem_map_of_mem Actor.id hmem')
      simp [List.find?, hne]
      exact ih hmem' hnd.2

theorem findActor_updateActorHp (s : State) (tid : Nat) (v : Int) (aid : Nat) :
    findActor (updateActorHp s tid v) aid
      = (findActor s aid).map (fun a => if a.id == tid then setHp a v else a) := by
  unfold findActor updateActorHp
  exact find?_id_map _ _ (fun a => by by_cases h : a.id == tid <;> simp [h, setHp]) aid

theorem findActor_moveActor (s : State) (aid0 : Nat) (dx dy : Int) (aid : Nat) :
    findActor (moveActor s aid0 dx dy) aid
      = (findActor s aid).map (fun a =>
          if a.id == aid0 then { a with x := a.x + dx, y := a.y + dy } else a) := by
  unfold findActor moveActor
  exact find?_id_map _ _ (fun a => by by_cases h : a.id == aid0 <;> simp [h]) aid

theorem findActor_addMessage (s : State) (t : String) (c : Color) (aid : Nat) :
    findActor (addMessage s t c) aid = findActor s aid := rfl

theorem melee_raise_state_eq (s : State) (e : Actor) (dx dy : Int) (msg : String) (s' : State)
    (h : meleeActionPerform s e dx dy = .impossible msg s') : s' = s := by
  unfold meleeActionPerform at h
  cases hA : getActorAt s (e.x + dx) (e.y + dy) with
  | none => rw [hA] at h; cases h; rfl
  | some t =>
    rw [hA] at h
    simp only [] at h
    split at h <;> cases h

theorem movement_raise_state_eq (s : State) (e : Actor) (dx dy : Int) (msg : String)
    (s' : State) (h : movementActionPerform s e dx dy = .impossible msg s') : s' = s := by
  unfold movementActionPerform at h
  split at h
  · cases h; rfl
  · split at h
    · cases h; rfl
    · split at h
      · cases h; rfl
      · cases h

theorem attemptPickup_raise_state_eq (s : State) (e : Actor) (item : Item) (msg : String)
    (s' : State) (h : attemptPickup s e item = .impossible msg s') : s' = s := by
  unfold attemptPickup at h
  split at h
  · injection h with h1 h2
    exact h2.symm
  · exact Outcome.noConfusion h

theorem pickup_raise_state_eq (s : State) (e : Actor) (msg : String) (s' : State)
    (h : pickupActionPerform s e = .impossible msg s') : s' = s := by
  unfold pickupActionPerform at h
  cases hI : s.mapItems.find? (fun item => e.x == item.x && e.y == item.y) with
  | none =>
    rw [hI] at h
    injection h with h1 h2
    exact h2.symm
  | some item =>
    rw [hI] at h
    exact attemptPickup_raise_state_eq s e item msg s' h

theorem performAction_raise_state_eq (s : State) (a : GameAction) (msg : String) (s' : State)
    (h : performAction s a = .impossible msg s') : s' = s := by
  cases a with
  | bump dx dy =>
    simp only [performAction] at h
    cases hP : findActor s s.playerId with
    | none =>
      rw [hP] at h
      exact Outcome.noConfusion h
    | some p =>
      rw [hP] at h
      simp only [bumpActionPerform] at h
      split at h
      · exact melee_raise_state_eq s p dx dy msg s' h
      · exact movement_raise_state_eq s p dx dy msg s' h
  | wait => exact Outcome.noConfusion h
  | escape => exact Outcome.noConfusion h

theorem melee_trace_eq (s : State) (e : Actor) (dx dy : Int) :
    (meleeActionPerform s e dx dy).state.trace = s.trace := by
  unfold meleeActionPerform
  cases getActorAt s (e.x + dx) (e.y + dy) with
  | none => rfl
  | some t =>
    simp only []
    split <;> rfl

theorem movement_trace_eq (s : State) (e : Actor) (dx dy : Int) :
    (movementActionPerform s e dx dy).state.trace = s.trace := by
  unfold movementActionPerform
  split
  · rfl
  · split
    · rfl
    · split <;> rfl

theorem performAction_trace_eq (s : State) (a : GameAction) :
    (performAction s a).state.trace = s.trace := by
  cases a with
  | bump dx dy =>
    unfold performAction
    cases findActor s s.playerId with
    | none => rfl
    | some p =>
      simp only []
      unfold bumpActionPerform
      split
      · exact melee_trace_eq s p dx dy
      · exact movement_trace_eq s p dx dy
  | wait => rfl
  | escape => rfl

/-! ### Claim theorems -/

/-- C1: For every melee attack by actor A on a target actor B (the actor the
Oracle finds at the destination), the damage equals `A.power - B.defense`;
if `damage > 0` then B's hp decreases by exactly that damage and the
hit-points message is logged in the attacker-relative color, and if
`damage <= 0` then B's hp is unchanged and the no-damage message is logged;
B's hp never increases as a result of the attack. -/
theorem melee_attack_correct (s : State) (attacker target : Actor) (dx dy : Int)
    (hids : (s.actors.map Actor.id).Nodup)
    (hT : getActorAt s (attacker.x + dx) (attacker.y + dy) = some target) :
    ∃ s', meleeActionPerform s attacker dx dy = Outcome.ok s' ∧
      actorHp s target.id = some target.fighter.hp ∧
      (0 < attacker.fighter.power - target.fighter.defense →
        actorHp s' target.id
          = some (target.fighter.hp - (attacker.fighter.power - target.fighter.defense)) ∧
        s'.messageLog = s.messageLog ++
          [⟨pyCapitalize attacker.name ++ " attacks " ++ target.name ++ " for "
              ++ toString (attacker.fighter.power - target.fighter.defense) ++ " hit points.",
            if attacker.id == s.playerId then Color.playerAtk else Color.enemyAtk⟩]) ∧
      (attacker.fighter.power - target.fighter.defense ≤ 0 →
        actorHp s' target.id = some target.fighter.hp ∧
        s'.messageLog = s.messageLog ++
          [⟨pyCapitalize attacker.name ++ " attacks " ++ target.name ++ " but does no damage.",
            if attacker.id == s.playerId then Color.playerAtk else Color.enemyAtk⟩]) ∧
      (∀ v, actorHp s' target.id = some v → v ≤ target.fighter.hp) := by
  have htmem : target ∈ s.actors := by
    unfold getActorAt at hT
    exact List.mem_of_find?_eq_some hT
  have hself : findActor s target.id = some target := by
    unfold findActor
    exact find?_id_self s.actors target htmem hids
  by_cases hdmg : 0 < attacker.fighter.power - target.fighter.defense
  · refine ⟨updateActorHp
      (addMessage s
        (pyCapitalize attacker.name ++ " attacks " ++ target.name ++ " for "
          ++ toString (attacker.fighter.power - target.fighter.defense) ++ " hit points.")
        (if attacker.id == s.playerId then Color.playerAtk else Color.enemyAtk))
      target.id (target.fighter.hp - (attacker.fighter.power - target.fighter.defense)),
      ?_, ?_, ?_, ?_, ?_⟩
    · simp only [meleeActionPerform, hT]
      rw [if_pos hdmg]
    · simp [actorHp, hself]
    · intro _
      constructor
      · rw [actorHp, findActor_updateActorHp, findActor_addMessage, hself]
        simp [setHp]
      · simp [updateActorHp, addMessage]
    · intro hle
      omega
    · intro v hv
      rw [actorHp, findActor_updateActorHp, findActor_addMessage, hself] at hv
      simp [setHp] at hv
      omega
  · refine ⟨addMessage s
      (pyCapitalize attacker.name ++ " attacks " ++ target.name ++ " but does no damage.")
      (if attacker.id == s.playerId then Color.playerAtk else Color.enemyAtk),
      ?_, ?_, ?_, ?_, ?_⟩
    · simp only [meleeActionPerform, hT]
      rw [if_neg hdmg]
    · simp [actorHp, hself]
    · intro h
      exact absurd h hdmg
    · intro _
      constructor
      · simp [actorHp, findActor_addMessage, hself]
      · simp [addMessage]
    · intro v hv
      rw [actorHp, findActor_addMessage, hself] at hv
      simp at hv
      omega

/-- Concrete fixture: a player (power 5, defense 5) at (0,0). -/
def heroC1 : Actor :=
  { id := 1, x := 0, y := 0, name := "hero",
    fighter := { hp := 30, power := 5, defense := 5 },
    inventory := { capacity := 26, items := [] }, blocksMovement := true }

/-- Concrete fixture: an orc (power 2, defense 2) at (1,0). -/
def orcC1 : Actor :=
  { id := 2, x := 1, y := 0, name := "orc",
    fighter := { hp := 10, power := 2, defense := 2 },
    inventory := { capacity := 26, items := [] }, blocksMovement := true }

/-- Concrete fixture: hero and orc adjacent on an all-walkable 10×10 map. -/
def stateC1 : State :=
  { width := 10, height := 10, walkable := fun _ _ => true,
    actors := [heroC1, orcC1], mapItems := [], playerId := 1,
    messageLog := [], trace := [] }

/-- Witness for C1: hero (power 5) hits orc (defense 2) for exactly 3
(hp 10 → 7); orc (power 2) against hero (defense 5) leaves hp 30 unchanged. -/
theorem melee_attack_correct_witness :
    ((stateC1.actors.map Actor.id).Nodup ∧
      getActorAt stateC1 (heroC1.x + 1) (heroC1.y + 0) = some orcC1 ∧
      (∃ s', meleeActionPerform stateC1 heroC1 1 0 = Outcome.ok s' ∧
        actorHp s' 2 = some 7)) ∧
    (getActorAt stateC1 (orcC1.x + (-1)) (orcC1.y + 0) = some heroC1 ∧
      (∃ s', meleeActionPerform stateC1 orcC1 (-1) 0 = Outcome.ok s' ∧
        actorHp s' 1 = some 30)) := by
  have h1 : (stateC1.actors.map Actor.id).Nodup := by decide
  have h2 : getActorAt stateC1 (heroC1.x + 1) (heroC1.y + 0) = some orcC1 := by decide
  have h3 : getActorAt stateC1 (orcC1.x + (-1)) (orcC1.y + 0) = some heroC1 := by decide
  obtain ⟨s', heq, hpre, hpos, hneg, hmono⟩ :=
    melee_attack_correct stateC1 heroC1 orcC1 1 0 h1 h2
  obtain ⟨s'', heq'', hpre'', hpos'', hneg'', hmono''⟩ :=
    melee_attack_correct stateC1 orcC1 heroC1 (-1) 0 h1 h3
  refine ⟨⟨h1, h2, s', heq, ?_⟩, h3, s'', heq'', ?_⟩
  · have := (hpos (by decide)).1
    simpa [heroC1, orcC1] using this
  · have := (hneg'' (by decide)).1
    simpa [heroC1, orcC1] using this

/-- Helper: two members of an id-`Nodup` actor list with the same id are the
same actor. -/
theorem mem_id_eq_of_nodup (l : List Actor) (a b : Actor) (ha : a ∈ l) (hb : b ∈ l)
    (hid : a.id = b.id) (hnd : (l.map Actor.id).Nodup) : a = b := by
  induction l with
  | nil => cases ha
  | cons c l ih =>
    simp only [List.map_cons, List.nodup_cons] at hnd
    rcases List.mem_cons.mp ha with rfl | ha'
    · rcases List.mem_cons.mp hb with rfl | hb'
      · rfl
      · refine absurd ?_ hnd.1
        rw [hid]
        exact List.mem_map_of_mem Actor.id hb'
    · rcases List.mem_cons.mp hb with rfl | hb'
      · refine absurd ?_ hnd.1
        rw [← hid]
        exact List.mem_map_of_mem Actor.id ha'
      · exact ih ha' hb' hnd.2

/-- Helper: mapping a function that fixes every member is the identity. -/
theorem map_id_of_eq (l : List Actor) (f : Actor → Actor) (h : ∀ a ∈ l, f a = a) :
    l.map f = l := by
  induction l with
  | nil => rfl
  | cons c l ih =>
    simp only [List.map_cons]
    rw [h c (List.mem_cons_self c l), ih (fun a ha => h a (List.mem_cons_of_mem c ha))]

/-- Helper: projecting id and position through an hp update is invisible. -/
theorem map_proj_setHp (l : List Actor) (tid : Nat) (v : Int) :
    (l.map (fun a => if a.id == tid then setHp a v else a)).map (fun a => (a.id, a.x, a.y))
      = l.map (fun a => (a.id, a.x, a.y)) := by
  induction l with
  | nil => rfl
  | cons a l ih =>
    simp only [List.map_cons, List.cons.injEq]
    refine ⟨?_, ih⟩
    by_cases h : (a.id == tid) = true
    · rw [if_pos h]
      rfl
    · rw [if_neg h]

/-- C10 (amended): for every `MeleeAction.perform` whose destination holds a
target actor distinct from the attacker, the attacker object is entirely
unchanged; the map's items, every actor's id and position, every actor other
than the defender, the engine trace, and the remaining scalar state are
unchanged; and the full frame condition holds: the resulting actor list is
exactly the original one with only the defender's hp overwritten by some
value `v ≤` its old hp (so the defender's name, power, defense, inventory
and blocking flag are untouched), making one appended log message and a
possible decrease (never an increase) of the defender's hp the only
world-state change. -/
theorem melee_attack_frame (s : State) (attacker target : Actor) (dx dy : Int)
    (hids : (s.actors.map Actor.id).Nodup)
    (hA : findActor s attacker.id = some attacker)
    (hT : getActorAt s (attacker.x + dx) (attacker.y + dy) = some target)
    (hne : attacker.id ≠ target.id) :
    ∃ s', meleeActionPerform s attacker dx dy = Outcome.ok s' ∧
      findActor s' attacker.id = some attacker ∧
      s'.mapItems = s.mapItems ∧
      s'.actors.map (fun a => (a.id, a.x, a.y)) = s.actors.map (fun a => (a.id, a.x, a.y)) ∧
      (∀ a ∈ s.actors, a.id ≠ target.id → a ∈ s'.actors) ∧
      (∃ m, s'.messageLog = s.messageLog ++ [m]) ∧
      s'.trace = s.trace ∧
      s'.playerId = s.playerId ∧ s'.width = s.width ∧ s'.height = s.height ∧
      s'.walkable = s.walkable ∧
      (∀ v, actorHp s' target.id = some v → v ≤ target.fighter.hp) ∧
      (∃ v, v ≤ target.fighter.hp ∧
        s'.actors = s.actors.map (fun a => if a.id == target.id then setHp a v else a)) := by
  have htmem : target ∈ s.actors := by
    unfold getActorAt at hT
    exact List.mem_of_find?_eq_some hT
  have hself : findActor s target.id = some target := by
    unfold findActor
    exact find?_id_self s.actors target htmem hids
  have hbne : (attacker.id == target.id) = false := by
    simpa using hne
  by_cases hdmg : 0 < attacker.fighter.power - target.fighter.defense
  · refine ⟨updateActorHp
      (addMessage s
        (pyCapitalize attacker.name ++ " attacks " ++ target.name ++ " for "
          ++ toString (attacker.fighter.power - target.fighter.defense) ++ " hit points.")
        (if attacker.id == s.playerId then Color.playerAtk else Color.enemyAtk))
      target.id (target.fighter.hp - (attacker.fighter.power - target.fighter.defense)),
      ?_, ?_, ?_, ?_, ?_, ?_, ?_, ?_, ?_, ?_, ?_, ?_, ?_⟩
    · simp only [meleeActionPerform, hT]
      rw [if_pos hdmg]
    · rw [findActor_updateActorHp, findActor_addMessage, hA]
      simp [hbne]
      intro h
      exact absurd h hne
    · simp [updateActorHp, addMessage]
    · simp only [updateActorHp, addMessage]
      exact map_proj_setHp s.actors target.id _
    · intro a hmem hane
      simp only [updateActorHp, addMessage]
      have hm := List.mem_map_of_mem
        (fun a => if a.id == target.id then setHp a
          (target.fighter.hp - (attacker.fighter.power - target.fighter.defense)) else a) hmem
      simpa [hane] using hm
    · exact ⟨⟨pyCapitalize attacker.name ++ " attacks " ++ target.name ++ " for "
          ++ toString (attacker.fighter.power - target.fighter.defense) ++ " hit points.",
        if attacker.id == s.playerId then Color.playerAtk else Color.enemyAtk⟩,
        by simp [updateActorHp, addMessage]⟩
    · simp [updateActorHp, addMessage]
    · rfl
    · rfl
    · rfl
    · rfl
    · intro v hv
      rw [actorHp, findActor_updateActorHp, findActor_addMessage, hself] at hv
      simp [setHp] at hv
      omega
    · exact ⟨target.fighter.hp - (attacker.fighter.power - target.fighter.defense),
        by omega, rfl⟩
  · refine ⟨addMessage s
      (pyCapitalize attacker.name ++ " attacks " ++ target.name ++ " but does no damage.")
      (if attacker.id == s.playerId then Color.playerAtk else Color.enemyAtk),
      ?_, ?_, rfl, rfl, ?_, ⟨_, rfl⟩, rfl, rfl, rfl, rfl, rfl, ?_, ?_⟩
    · simp only [meleeActionPerform, hT]
      rw [if_neg hdmg]
    · rw [findActor_addMessage]
      exact hA
    · intro a hmem _
      exact hmem
    · intro v hv
      rw [actorHp, findActor_addMessage, hself] at hv
      simp at hv
      omega
    · refine ⟨target.fighter.hp, le_refl _, (map_id_of_eq s.actors _ ?_).symm⟩
      intro a ha
      by_cases h : (a.id == target.id) = true
      · rw [if_pos h]
        have haeq : a = target :=
          mem_id_eq_of_nodup s.actors a target ha htmem (by simpa using h) hids
        subst haeq
        rfl
      · rw [if_neg h]

/-- Concrete fixture for the C10 counterexample: a lone actor with
power 5, defense 2, hp 10. -/
def selfC10 : Actor :=
  { id := 1, x := 0, y := 0, name := "hero",
    fighter := { hp := 10, power := 5, defense := 2 },
    inventory := { capacity := 26, items := [] }, blocksMovement := true }

/-- Concrete fixture: the lone actor's world. -/
def stateC10 : State :=
  { width := 10, height := 10, walkable := fun _ _ => true,
    actors := [selfC10], mapItems := [], playerId := 1,
    messageLog := [], trace := [] }

/-- Counterexample to C10 as stated: with offset (0,0) the destination holds
a target actor (the attacker itself), yet the attack changes the attacker:
its hp drops from 10 to 7.  So "the attacker is entirely unchanged" fails
without the distinctness proviso. -/
theorem melee_attack_frame_counterexample :
    getActorAt stateC10 (selfC10.x + 0) (selfC10.y + 0) = some selfC10 ∧
    actorHp stateC10 selfC10.id = some 10 ∧
    actorHp (meleeActionPerform stateC10 selfC10 0 0).state selfC10.id = some 7 := by
  decide

/-- Witness for C10 at the hero-vs-orc fixture. -/
theorem melee_attack_frame_witness :
    (stateC1.actors.map Actor.id).Nodup ∧
    findActor stateC1 heroC1.id = some heroC1 ∧
    getActorAt stateC1 (heroC1.x + 1) (heroC1.y + 0) = some orcC1 ∧
    heroC1.id ≠ orcC1.id ∧
    ∃ s', meleeActionPerform stateC1 heroC1 1 0 = Outcome.ok s' ∧
      findActor s' heroC1.id = some heroC1 ∧ s'.mapItems = stateC1.mapItems := by
  have h1 : (stateC1.actors.map Actor.id).Nodup := by decide
  have h2 : findActor stateC1 heroC1.id = some heroC1 := by decide
  have h3 : getActorAt stateC1 (heroC1.x + 1) (heroC1.y + 0) = some orcC1 := by decide
  have h4 : heroC1.id ≠ orcC1.id := by decide
  obtain ⟨s', heq, hatk, hitems, _⟩ := melee_attack_frame stateC1 heroC1 orcC1 1 0 h1 h2 h3 h4
  exact ⟨h1, h2, h3, h4, s', heq, hatk, hitems⟩

/-- C2: `MovementAction.perform` raises `Impossible` if and only if the
destination cell is out of bounds, or its tile is not walkable, or a
blocking entity occupies it; on every such failure the whole state (hence
the actor's position) is unchanged, and otherwise the acting entity is
relocated by exactly `(dx, dy)`. -/
theorem movement_action_correct (s : State) (entity : Actor) (dx dy : Int)
    (hmem : findActor s entity.id = some entity) :
    ((!(s.inBounds (entity.x + dx) (entity.y + dy))
        || !(s.walkable (entity.x + dx) (entity.y + dy))
        || (getBlockingEntityAt s (entity.x + dx) (entity.y + dy)).isSome) = true
      ↔ ∃ msg, movementActionPerform s entity dx dy = Outcome.impossible msg s) ∧
    ((!(s.inBounds (entity.x + dx) (entity.y + dy))
        || !(s.walkable (entity.x + dx) (entity.y + dy))
        || (getBlockingEntityAt s (entity.x + dx) (entity.y + dy)).isSome) = false →
      movementActionPerform s entity dx dy = Outcome.ok (moveActor s entity.id dx dy) ∧
      actorPos (moveActor s entity.id dx dy) entity.id
        = some (entity.x + dx, entity.y + dy)) := by
  cases hb : s.inBounds (entity.x + dx) (entity.y + dy) with
  | false =>
    refine ⟨⟨fun _ => ⟨"That way is blocked.", ?_⟩, fun _ => by simp⟩, fun h => by simp at h⟩
    simp [movementActionPerform, hb]
  | true =>
    cases hw : s.walkable (entity.x + dx) (entity.y + dy) with
    | false =>
      refine ⟨⟨fun _ => ⟨"That was is blocked.", ?_⟩, fun _ => by simp⟩, fun h => by simp at h⟩
      simp [movementActionPerform, hb, hw]
    | true =>
      cases hblk : (getBlockingEntityAt s (entity.x + dx) (entity.y + dy)).isSome with
      | true =>
        refine ⟨⟨fun _ => ⟨"That way is blocked.", ?_⟩, fun _ => by simp⟩, fun h => by simp at h⟩
        simp [movementActionPerform, hb, hw, hblk]
      | false =>
        refine ⟨⟨fun h => by simp at h, fun ⟨msg, hmsg⟩ => ?_⟩, fun _ => ⟨?_, ?_⟩⟩
        · rw [movementActionPerform] at hmsg
          simp [hb, hw, hblk] at hmsg
        · simp [movementActionPerform, hb, hw, hblk]
        · rw [actorPos, findActor_moveActor, hmem]
          simp

/-- Concrete fixture for movement: a lone actor at (0,0). -/
def moverC2 : Actor :=
  { id := 1, x := 0, y := 0, name := "hero",
    fighter := { hp := 30, power := 5, defense := 2 },
    inventory := { capacity := 26, items := [] }, blocksMovement := true }

/-- Concrete fixture: a fully walkable 3×1 strip. -/
def stateC2 : State :=
  { width := 3, height := 1, walkable := fun _ _ => true,
    actors := [moverC2], mapItems := [], playerId := 1,
    messageLog := [], trace := [] }

/-- Concrete fixture: a 2×1 strip whose cell (1,0) is not walkable. -/
def stateC2w : State :=
  { width := 2, height := 1, walkable := fun x _ => x == 0,
    actors := [moverC2], mapItems := [], playerId := 1,
    messageLog := [], trace := [] }

/-- Witness for C2: a step right on the open strip succeeds and relocates the
actor to (1,0); the same step against the unwalkable tile raises. -/
theorem movement_action_correct_witness :
    (findActor stateC2 moverC2.id = some moverC2 ∧
      movementActionPerform stateC2 moverC2 1 0 = Outcome.ok (moveActor stateC2 moverC2.id 1 0) ∧
      actorPos (moveActor stateC2 moverC2.id 1 0) moverC2.id = some (moverC2.x + 1, moverC2.y + 0)) ∧
    (findActor stateC2w moverC2.id = some moverC2 ∧
      ∃ msg, movementActionPerform stateC2w moverC2 1 0 = Outcome.impossible msg stateC2w) := by
  have h1 : findActor stateC2 moverC2.id = some moverC2 := by decide
  have h1w : findActor stateC2w moverC2.id = some moverC2 := by decide
  obtain ⟨hok, hpos⟩ := (movement_action_correct stateC2 moverC2 1 0 h1).2 (by decide)
  have hraise :=
    (movement_action_correct stateC2w moverC2 1 0 h1w).1.mp (by decide)
  exact ⟨⟨h1, hok, hpos⟩, h1w, hraise⟩

/-- C9 (amended): the legality checks of `MovementAction.perform` are
evaluated in the fixed order bounds → tile walkability → blocking entity
(an earlier failing check decides the outcome regardless of the later
checks), and all three failures raise `Impossible`; however the three
user-facing messages are not one unified string: bounds and entity failures
say "That way is blocked." while the tile failure carries the source's typo
"That was is blocked.". -/
theorem movement_check_order (s : State) (entity : Actor) (dx dy : Int) :
    (s.inBounds (entity.x + dx) (entity.y + dy) = false →
      movementActionPerform s entity dx dy = Outcome.impossible "That way is blocked." s) ∧
    (s.inBounds (entity.x + dx) (entity.y + dy) = true →
      s.walkable (entity.x + dx) (entity.y + dy) = false →
      movementActionPerform s entity dx dy = Outcome.impossible "That was is blocked." s) ∧
    (s.inBounds (entity.x + dx) (entity.y + dy) = true →
      s.walkable (entity.x + dx) (entity.y + dy) = true →
      (getBlockingEntityAt s (entity.x + dx) (entity.y + dy)).isSome = true →
      movementActionPerform s entity dx dy = Outcome.impossible "That way is blocked." s) := by
  refine ⟨fun hb => ?_, fun hb hw => ?_, fun hb hw hblk => ?_⟩
  · simp [movementActionPerform, hb]
  · simp [movementActionPerform, hb, hw]
  · simp [movementActionPerform, hb, hw, hblk]

/-- Concrete fixture: a 1×1 map, so that stepping right is out of bounds. -/
def stateC9 : State :=
  { width := 1, height := 1, walkable := fun _ _ => true,
    actors := [moverC2], mapItems := [], playerId := 1,
    messageLog := [], trace := [] }

/-- Counterexample to C9 as stated: the three failure causes do not produce
one unified "blocked" message — an out-of-bounds destination reports
"That way is blocked." while an unwalkable tile reports the distinct string
"That was is blocked.". -/
theorem movement_message_counterexample :
    movementActionPerform stateC9 moverC2 1 0
      = Outcome.impossible "That way is blocked." stateC9 ∧
    movementActionPerform stateC2w moverC2 1 0
      = Outcome.impossible "That was is blocked." stateC2w ∧
    "That was is blocked." ≠ "That way is blocked." := by
  refine ⟨rfl, rfl, by decide⟩

/-- Witness for C9: the order theorem applied on the 1×1 map (bounds check
fires) and on the unwalkable-tile strip (tile check fires). -/
theorem movement_check_order_witness :
    (stateC9.inBounds (moverC2.x + 1) (moverC2.y + 0) = false ∧
      movementActionPerform stateC9 moverC2 1 0
        = Outcome.impossible "That way is blocked." stateC9) ∧
    (stateC2w.inBounds (moverC2.x + 1) (moverC2.y + 0) = true ∧
      stateC2w.walkable (moverC2.x + 1) (moverC2.y + 0) = false ∧
      movementActionPerform stateC2w moverC2 1 0
        = Outcome.impossible "That was is blocked." stateC2w) := by
  refine ⟨⟨by decide, (movement_check_order stateC9 moverC2 1 0).1 (by decide)⟩,
    by decide, by decide, (movement_check_order stateC2w moverC2 1 0).2.1 (by decide) (by decide)⟩

/-- C3: `BumpAction.perform` performs the melee action when an actor occupies
the destination cell (for every state, hence regardless of that cell's
walkability) and the movement action otherwise; any `Impossible` outcome of
a bump is the outcome of the delegated melee or movement action, so the
bump dispatch itself never raises. -/
theorem bump_action_dispatch (s : State) (entity : Actor) (dx dy : Int) :
    ((getActorAt s (entity.x + dx) (entity.y + dy)).isSome = true →
      bumpActionPerform s entity dx dy = meleeActionPerform s entity dx dy) ∧
    ((getActorAt s (entity.x + dx) (entity.y + dy)).isSome = false →
      bumpActionPerform s entity dx dy = movementActionPerform s entity dx dy) ∧
    (∀ msg s', bumpActionPerform s entity dx dy = Outcome.impossible msg s' →
      meleeActionPerform s entity dx dy = Outcome.impossible msg s'
        ∨ movementActionPerform s entity dx dy = Outcome.impossible msg s') := by
  refine ⟨fun h => ?_, fun h => ?_, fun msg s' h => ?_⟩
  · simp [bumpActionPerform, h]
  · simp [bumpActionPerform, h]
  · unfold bumpActionPerform at h
    split at h
    · exact Or.inl h
    · exact Or.inr h

/-- Witness for C3: hero bumping toward the orc dispatches to melee; the
lone mover bumping into empty space dispatches to movement. -/
theorem bump_action_dispatch_witness :
    ((getActorAt stateC1 (heroC1.x + 1) (heroC1.y + 0)).isSome = true ∧
      bumpActionPerform stateC1 heroC1 1 0 = meleeActionPerform stateC1 heroC1 1 0) ∧
    ((getActorAt stateC2 (moverC2.x + 1) (moverC2.y + 0)).isSome = false ∧
      bumpActionPerform stateC2 moverC2 1 0 = movementActionPerform stateC2 moverC2 1 0) := by
  exact ⟨⟨by decide, (bump_action_dispatch stateC1 heroC1 1 0).1 (by decide)⟩,
    by decide, (bump_action_dispatch stateC2 moverC2 1 0).2.1 (by decide)⟩

/-- Helper: erasing the (unique, by `Nodup` of ids) item with a given id
removes exactly one element, leaves no element with that id, and keeps every
other element. -/
theorem eraseP_id_facts (l : List Item) (item : Item) (hmem : item ∈ l)
    (hnd : (l.map Item.id).Nodup) :
    (l.eraseP (fun it => it.id == item.id)).length + 1 = l.length ∧
    (∀ it ∈ l.eraseP (fun it => it.id == item.id), it.id ≠ item.id) ∧
    (∀ it ∈ l, it.id ≠ item.id → it ∈ l.eraseP (fun it => it.id == item.id)) := by
  induction l with
  | nil => cases hmem
  | cons c l ih =>
    simp only [List.map_cons, List.nodup_cons] at hnd
    by_cases hc : c.id = item.id
    · have hp : (c.id == item.id) = true := by simp [hc]
      rw [List.eraseP_cons, hp]
      simp only [cond_true]
      refine ⟨rfl, ?_, ?_⟩
      · intro it hit hideq
        exact hnd.1 (by
          rw [hc, ← hideq]
          exact List.mem_map_of_mem Item.id hit)
      · intro it hit hine
        rcases List.mem_cons.mp hit with rfl | h
        · exact absurd hc hine
        · exact h
    · have hp : (c.id == item.id) = false := by simp [hc]
      have hmem' : item ∈ l := by
        rcases List.mem_cons.mp hmem with rfl | h
        · exact absurd rfl hc
        · exact h
      obtain ⟨hlen, hnone, hret⟩ := ih hmem' hnd.2
      rw [List.eraseP_cons, hp]
      simp only [cond_false]
      refine ⟨by simp [← hlen], ?_, ?_⟩
      · intro it hit
        rcases List.mem_cons.mp hit with rfl | h
        · exact hc
        · exact hnone it h
      · intro it hit hine
        rcases List.mem_cons.mp hit with rfl | h
        · exact List.mem_cons_self it _
        · exact List.mem_cons_of_mem c (hret it h hine)

/-- C4: when the actor's cell holds a map item and the inventory has room,
`PickupAction.perform` removes exactly one item (the found one) from the
map's entity set, appends that item exactly once at the end of the
inventory's item sequence with its ownership reassigned to the actor's
inventory, and appends the "You picked up the <name>!" log message; a
subsequently repeated pickup by the (updated) actor at a cell with no item
left raises `Impossible`. -/
theorem pickup_success (s : State) (entity : Actor) (item : Item)
    (hmem : findActor s entity.id = some entity)
    (hnd : (s.mapItems.map Item.id).Nodup)
    (hfind : s.mapItems.find? (fun it => entity.x == it.x && entity.y == it.y) = some item)
    (hroom : entity.inventory.items.length < entity.inventory.capacity) :
    ∃ s', pickupActionPerform s entity = Outcome.ok s' ∧
      s'.mapItems.length + 1 = s.mapItems.length ∧
      (∀ it ∈ s'.mapItems, it.id ≠ item.id) ∧
      (∀ it ∈ s.mapItems, it.id ≠ item.id → it ∈ s'.mapItems) ∧
      s'.mapItems.Sublist s.mapItems ∧
      (findActor s' entity.id).map (fun a => a.inventory.items)
        = some (entity.inventory.items ++ [{ item with parent := Owner.inventoryOf entity.id }]) ∧
      s'.messageLog = s.messageLog
        ++ [⟨"You picked up the " ++ item.name ++ "!", Color.white⟩] ∧
      s'.trace = s.trace ∧
      (∀ a', findActor s' entity.id = some a' →
        s'.mapItems.find? (fun it => a'.x == it.x && a'.y == it.y) = none →
        pickupActionPerform s' a'
          = Outcome.impossible "There is nothing here to pick up." s') := by
  have hitemmem : item ∈ s.mapItems := List.mem_of_find?_eq_some hfind
  obtain ⟨hlen, hnone, hret⟩ := eraseP_id_facts s.mapItems item hitemmem hnd
  refine ⟨addMessage
    { s with
      mapItems := s.mapItems.eraseP (fun it => it.id == item.id),
      actors := s.actors.map (fun a =>
        if a.id == entity.id then
          { a with inventory :=
            { a.inventory with
              items := a.inventory.items
                ++ [{ item with parent := Owner.inventoryOf entity.id }] } }
        else a) }
    ("You picked up the " ++ item.name ++ "!") Color.white,
    ?_, hlen, hnone, hret, List.eraseP_sublist s.mapItems, ?_, rfl, rfl, ?_⟩
  · simp only [pickupActionPerform, hfind, attemptPickup]
    rw [if_neg (by omega)]
  · rw [findActor_addMessage]
    unfold findActor
    rw [find?_id_map s.actors _
      (fun a => by by_cases h : a.id == entity.id <;> simp [h]) entity.id]
    unfold findActor at hmem
    rw [hmem]
    simp
  · intro a' ha' hnone'
    simp only [pickupActionPerform]
    rw [hnone']

/-- C5: with a map item at the actor's cell but a full inventory,
`PickupAction.perform` raises `Impossible` and the whole state (map entity
set and inventory included) is unchanged; with no item at the actor's exact
cell it raises `Impossible` with no state change. -/
theorem pickup_failure (s : State) (entity : Actor) :
    (∀ item, s.mapItems.find? (fun it => entity.x == it.x && entity.y == it.y) = some item →
      entity.inventory.items.length ≥ entity.inventory.capacity →
      pickupActionPerform s entity = Outcome.impossible "Your inventory is full." s) ∧
    (s.mapItems.find? (fun it => entity.x == it.x && entity.y == it.y) = none →
      pickupActionPerform s entity
        = Outcome.impossible "There is nothing here to pick up." s) := by
  refine ⟨fun item hfind hfull => ?_, fun hnone => ?_⟩
  · simp only [pickupActionPerform, hfind, attemptPickup]
    rw [if_pos hfull]
  · simp [pickupActionPerform, hnone]

/-- Concrete fixture: a potion lying on the map at (0,0). -/
def potionC4 : Item :=
  { id := 10, x := 0, y := 0, name := "potion", parent := Owner.onMap }

/-- Concrete fixture: an actor standing on the potion with room (capacity 2,
empty inventory). -/
def pickerC4 : Actor :=
  { id := 1, x := 0, y := 0, name := "hero",
    fighter := { hp := 30, power := 5, defense := 2 },
    inventory := { capacity := 2, items := [] }, blocksMovement := true }

/-- Concrete fixture: the pickup world. -/
def stateC4 : State :=
  { width := 3, height := 1, walkable := fun _ _ => true,
    actors := [pickerC4], mapItems := [potionC4], playerId := 1,
    messageLog := [], trace := [] }

/-- Witness for C4 at the potion fixture. -/
theorem pickup_success_witness :
    findActor stateC4 pickerC4.id = some pickerC4 ∧
    (stateC4.mapItems.map Item.id).Nodup ∧
    stateC4.mapItems.find? (fun it => pickerC4.x == it.x && pickerC4.y == it.y)
      = some potionC4 ∧
    pickerC4.inventory.items.length < pickerC4.inventory.capacity ∧
    ∃ s', pickupActionPerform stateC4 pickerC4 = Outcome.ok s' ∧
      s'.mapItems.length + 1 = stateC4.mapItems.length ∧
      (findActor s' pickerC4.id).map (fun a => a.inventory.items)
        = some (pickerC4.inventory.items
          ++ [{ potionC4 with parent := Owner.inventoryOf pickerC4.id }]) ∧
      s'.messageLog = stateC4.messageLog
        ++ [⟨"You picked up the " ++ potionC4.name ++ "!", Color.white⟩] := by
  have h1 : findActor stateC4 pickerC4.id = some pickerC4 := by decide
  have h2 : (stateC4.mapItems.map Item.id).Nodup := by decide
  have h3 : stateC4.mapItems.find? (fun it => pickerC4.x == it.x && pickerC4.y == it.y)
      = some potionC4 := by decide
  have h4 : pickerC4.inventory.items.length < pickerC4.inventory.capacity := by decide
  obtain ⟨s', hok, hlen, _, _, _, hinv, hlog, _, _⟩ :=
    pickup_success stateC4 pickerC4 potionC4 h1 h2 h3 h4
  exact ⟨h1, h2, h3, h4, s', hok, hlen, hinv, hlog⟩

/-- Concrete fixture: the same cell but the actor's inventory is full
(capacity 0). -/
def fullPickerC5 : Actor :=
  { id := 1, x := 0, y := 0, name := "hero",
    fighter := { hp := 30, power := 5, defense := 2 },
    inventory := { capacity := 0, items := [] }, blocksMovement := true }

/-- Concrete fixture: the full-inventory pickup world. -/
def stateC5 : State :=
  { width := 3, height := 1, walkable := fun _ _ => true,
    actors := [fullPickerC5], mapItems := [potionC4], playerId := 1,
    messageLog := [], trace := [] }

/-- Witness for C5: a full inventory over an item raises with no state
change; an empty cell (the `stateC2` world has no items) also raises. -/
theorem pickup_failure_witness :
    (stateC5.mapItems.find? (fun it => fullPickerC5.x == it.x && fullPickerC5.y == it.y)
        = some potionC4 ∧
      fullPickerC5.inventory.items.length ≥ fullPickerC5.inventory.capacity ∧
      pickupActionPerform stateC5 fullPickerC5
        = Outcome.impossible "Your inventory is full." stateC5) ∧
    (stateC2.mapItems.find? (fun it => moverC2.x == it.x && moverC2.y == it.y) = none ∧
      pickupActionPerform stateC2 moverC2
        = Outcome.impossible "There is nothing here to pick up." stateC2) := by
  refine ⟨⟨by decide, by decide,
      (pickup_failure stateC5 fullPickerC5).1 potionC4 (by decide) (by decide)⟩,
    by decide, (pickup_failure stateC2 moverC2).2 (by decide)⟩

/-- C6 (amended): for every player Action dispatched by the Playing-mode
loop: if `perform` succeeds, the enemy-turn pass and then the FOV refresh
run, in that order, exactly once; if `perform` raises `Impossible`, the
exception propagates uncaught out of the loop body (the source loop has no
try/except, so the exception is not caught there and not converted to a log
message), the state is exactly as it was before the action, and neither the
enemy-turn pass nor the FOV refresh runs. -/
theorem main_game_loop_sequencing (s : State) (key : KeySym) (act : GameAction)
    (hdisp : mainGameEvKeydown key = some act) :
    (∀ s1, performAction s act = Outcome.ok s1 →
      mainGameHandleEvent s key = LoopResult.done (updateFov (handleEnemyTurns s1)) ∧
      s1.trace = s.trace ∧
      (updateFov (handleEnemyTurns s1)).trace
        = s.trace ++ [SeqEvent.enemyTurns, SeqEvent.fovRefresh]) ∧
    (∀ msg s1, performAction s act = Outcome.impossible msg s1 →
      mainGameHandleEvent s key = LoopResult.raised msg s1 ∧ s1 = s) := by
  refine ⟨fun s1 hok => ?_, fun msg s1 himp => ?_⟩
  · have htrace : s1.trace = s.trace := by
      have h := performAction_trace_eq s act
      rw [hok] at h
      simpa [Outcome.state] using h
    refine ⟨?_, htrace, ?_⟩
    · simp [mainGameHandleEvent, hdisp, hok]
    · simp [updateFov, handleEnemyTurns, htrace]
  · refine ⟨?_, performAction_raise_state_eq s act msg s1 himp⟩
    simp [mainGameHandleEvent, hdisp, himp]

/-- Counterexample to C6 as stated: bumping the player into the unwalkable
tile of `stateC2w` makes `perform` raise `Impossible`, and the Playing-mode
loop lets it propagate (`LoopResult.raised`) instead of catching it at the
invocation point; no log message is produced (the log stays empty), so the
"caught and converted to a log message" part of the claim fails on the
code. -/
theorem main_game_no_catch_counterexample :
    mainGameHandleEvent stateC2w KeySym.RIGHT
      = LoopResult.raised "That was is blocked." stateC2w ∧
    stateC2w.messageLog = [] ∧ stateC2w.trace = [] :=
  ⟨rfl, rfl, rfl⟩

/-- Witness for C6 (amended) at concrete inputs: a successful step runs
enemy turns then the FOV refresh exactly once, and the blocked step
propagates the exception with nothing run. -/
theorem main_game_loop_sequencing_witness :
    mainGameEvKeydown KeySym.RIGHT = some (GameAction.bump 1 0) ∧
    performAction stateC2 (GameAction.bump 1 0)
      = Outcome.ok (moveActor stateC2 moverC2.id 1 0) ∧
    mainGameHandleEvent stateC2 KeySym.RIGHT
      = LoopResult.done (updateFov (handleEnemyTurns (moveActor stateC2 moverC2.id 1 0))) ∧
    (updateFov (handleEnemyTurns (moveActor stateC2 moverC2.id 1 0))).trace
      = stateC2.trace ++ [SeqEvent.enemyTurns, SeqEvent.fovRefresh] ∧
    mainGameHandleEvent stateC2w KeySym.RIGHT
      = LoopResult.raised "That was is blocked." stateC2w := by
  have h1 : mainGameEvKeydown KeySym.RIGHT = some (GameAction.bump 1 0) := by decide
  have h2 : performAction stateC2 (GameAction.bump 1 0)
      = Outcome.ok (moveActor stateC2 moverC2.id 1 0) := rfl
  obtain ⟨hdone, _, htr⟩ :=
    (main_game_loop_sequencing stateC2 KeySym.RIGHT (GameAction.bump 1 0) h1).1 _ h2
  have h3 : performAction stateC2w (GameAction.bump 1 0)
      = Outcome.impossible "That was is blocked." stateC2w := rfl
  obtain ⟨hraised, _⟩ :=
    (main_game_loop_sequencing stateC2w KeySym.RIGHT (GameAction.bump 1 0) h1).2 _ _ h3
  exact ⟨h1, h2, hdone, htr, hraised⟩

/-- C7: in GameOver mode a key-down yields no Action unless the key is
escape (which yields the exit intent for the player); and processing any
key-down in GameOver mode never invokes the enemy-turn pass or the FOV
refresh (the engine trace is unchanged whatever the key). -/
theorem game_over_mode_correct (s : State) (key : KeySym) :
    (key ≠ KeySym.ESCAPE → gameOverEvKeydown key = none) ∧
    (key = KeySym.ESCAPE → gameOverEvKeydown key = some GameAction.escape) ∧
    (gameOverHandleEvent s key).state.trace = s.trace := by
  refine ⟨fun h => by simp [gameOverEvKeydown, h],
    fun h => by simp [gameOverEvKeydown, h], ?_⟩
  by_cases h : key = KeySym.ESCAPE
  · simp [gameOverHandleEvent, gameOverEvKeydown, h, performAction,
      escapeActionPerform, LoopResult.state]
  · simp [gameOverHandleEvent, gameOverEvKeydown, h, LoopResult.state]

/-- Witness for C7: a non-escape key yields no Action, escape yields the
exit intent, and a movement key leaves the GameOver trace unchanged. -/
theorem game_over_mode_correct_witness :
    gameOverEvKeydown (KeySym.other 42) = none ∧
    gameOverEvKeydown KeySym.ESCAPE = some GameAction.escape ∧
    (gameOverHandleEvent stateC2 KeySym.UP).state.trace = stateC2.trace := by
  exact ⟨(game_over_mode_correct stateC2 (KeySym.other 42)).1 (by decide),
    (game_over_mode_correct stateC2 KeySym.ESCAPE).2.1 rfl,
    (game_over_mode_correct stateC2 KeySym.UP).2.2⟩

/-- C8: in Playing mode every key-down maps to at most one Action: a key in
the fixed `MOVE_KEYS` table yields a Bump with that key's offset, a key in
the fixed `WAIT_KEYS` set yields Wait, escape yields the exit intent, and
every other key yields no Action. -/
theorem main_game_keymap_correct (key : KeySym) :
    (∀ dx dy, MOVE_KEYS key = some (dx, dy) →
      mainGameEvKeydown key = some (GameAction.bump dx dy)) ∧
    (WAIT_KEYS key = true → mainGameEvKeydown key = some GameAction.wait) ∧
    (key = KeySym.ESCAPE → mainGameEvKeydown key = some GameAction.escape) ∧
    (MOVE_KEYS key = none → WAIT_KEYS key = false → key ≠ KeySym.ESCAPE →
      mainGameEvKeydown key = none) := by
  refine ⟨fun dx dy h => ?_, fun h => ?_, fun h => ?_, fun h1 h2 h3 => ?_⟩
  · simp [mainGameEvKeydown, h]
  · have hmk : MOVE_KEYS key = none := by
      cases key <;> simp_all [MOVE_KEYS, WAIT_KEYS]
    simp [mainGameEvKeydown, hmk, h]
  · subst h
    rfl
  · simp [mainGameEvKeydown, h1, h2, h3]

/-- Witness for C8 at concrete keys: the vi key `k` bumps up, `PERIOD`
waits, escape exits, and an unbound key yields nothing. -/
theorem main_game_keymap_correct_witness :
    mainGameEvKeydown KeySym.k = some (GameAction.bump 0 (-1)) ∧
    mainGameEvKeydown KeySym.PERIOD = some GameAction.wait ∧
    mainGameEvKeydown KeySym.ESCAPE = some GameAction.escape ∧
    mainGameEvKeydown (KeySym.other 99) = none := by
  exact ⟨(main_game_keymap_correct KeySym.k).1 0 (-1) (by decide),
    (main_game_keymap_correct KeySym.PERIOD).2.1 (by decide),
    (main_game_keymap_correct KeySym.ESCAPE).2.2.1 rfl,
    (main_game_keymap_correct (KeySym.other 99)).2.2.2 (by decide) (by decide) (by decide)⟩

end Rogue
